import Mathlib

/-!
Shallow embedding of the Snake prototype (`SnakeProto.ino`): the occupancy
bitmap helpers, head placement, apple placement, and the body of
`GameLogicTask` as a step function on an explicit state record.

Machine integers (`uint8_t`) are modelled as `Nat` with `% 256` at the
points where the C code truncates.  The global `game_bitmap[8]` is a
`List Nat` of 8 rows (globals are zero-initialized in C, so the initial
grid is all zeros); `snake_buf[64]` is a `List Nat` of 64 packed
coordinates.  `rand()` is modelled by a `Nat` supplied to each call.
-/

namespace SnakeProto

/-- Macro definition of the UP direction code, value 1. -/
def UP : Nat := 1

/-- Macro definition of the DOWN direction code, value 2. -/
def DOWN : Nat := 2

/-- Macro definition of the RIGHT direction code, value 10. -/
def RIGHT : Nat := 10

/-- Macro definition of the LEFT direction code, value 11. -/
def LEFT : Nat := 11

/-- Macro definition of the screen width, value 8. -/
def SCREEN_WIDTH : Nat := 8

/-- Macro definition of the screen height, value 8. -/
def SCREEN_HEIGHT : Nat := 8

/-- Game-state tag MAIN_MENU, value 1. -/
def MAIN_MENU : Nat := 1

/-- Game-state tag PLAYING, value 2. -/
def PLAYING : Nat := 2

/-- Game-state tag GAME_OVER_TRANS, value 3. -/
def GAME_OVER_TRANS : Nat := 3

/-- Game-state tag GAME_OVER_MENU, value 4. -/
def GAME_OVER_MENU : Nat := 4

/-- Game-state tag SETUP_GAME, value 7. -/
def SETUP_GAME : Nat := 7

/-- Macro UPPER_BITS, the shift `x >> 4` applied to a `uint8_t` value:
the x-component of a packed coordinate. -/
def UPPER_BITS (c : Nat) : Nat := c % 256 / 16

/-- Macro LOWER_BITS, the mask `x & 0x0F`: the y-component of a packed
coordinate. -/
def LOWER_BITS (c : Nat) : Nat := c % 16

/-- Macro TO_COORDINATES, packing as `y | (x << 4)`. -/
def TO_COORDINATES (x y : Nat) : Nat := y ||| (x <<< 4)

/-- Macro SNAKE_NEXT, the increment `(x + 1) % SNAKE_LEN` with
`SNAKE_LEN = 64`. -/
def SNAKE_NEXT (x : Nat) : Nat := (x + 1) % 64

/-- Observer: the actual value of the occupancy bit for packed coordinate
`c` in the grid (bit `x` of row `y`).  Used to state properties about
occupancy; distinct from the program's own (buggy) `check_bitmap`. -/
def bitSet (g : List Nat) (c : Nat) : Bool :=
  Nat.testBit (g.getD (LOWER_BITS c) 0) (UPPER_BITS c)

/-- Helper check_bitmap: `return !!game_bitmap[LOWER_BITS(c)] & (1 << UPPER_BITS(c));`
`!` binds tighter than `&`, so this is `(!!row) & (1 << x)`; the `int`
result is truncated to `uint8_t` on return. -/
def check_bitmap (g : List Nat) (c : Nat) : Nat :=
  ((if g.getD (LOWER_BITS c) 0 ≠ 0 then 1 else 0) &&& (1 <<< UPPER_BITS c)) % 256

/-- Helper set_bitmap_one: `game_bitmap[LOWER_BITS(c)] |= (1 << UPPER_BITS(c));`
(the `int` result of `|` is truncated to the `uint8_t` row on store). -/
def set_bitmap_one (g : List Nat) (c : Nat) : List Nat :=
  g.set (LOWER_BITS c) ((g.getD (LOWER_BITS c) 0 ||| (1 <<< UPPER_BITS c)) % 256)

/-- Helper set_bitmap_zero: `game_bitmap[LOWER_BITS(c)] &= ~(1 << UPPER_BITS(c));`
For a row value below 256, anding with the `int` complement of `1 << x`
equals anding with the low byte `255 ^^^ ((1 <<< x) % 256)`. -/
def set_bitmap_zero (g : List Nat) (c : Nat) : List Nat :=
  g.set (LOWER_BITS c)
    (g.getD (LOWER_BITS c) 0 &&& (255 ^^^ ((1 <<< UPPER_BITS c) % 256)))

/-- Cells visited by the double loop of place_apple, in source order:
`for (y = 0; y <= SCREEN_HEIGHT; y++) for (x = 0; x <= SCREEN_WIDTH; x++)`,
i.e. 9×9 cells (both loops are inclusive of 8), each packed by
`TO_COORDINATES(x, y)`. -/
def appleScanCells : List Nat :=
  (List.range 81).map (fun k => TO_COORDINATES (k % 9) (k / 9))

/-- Loop body of place_apple over the remaining scan cells:
`if (r && !check_bitmap(c)) r--; if (!r) { *apple_coordinates = c; return; }`.
Returns `some c` on the cell the C code writes through the out-parameter,
`none` when the loops complete without writing. -/
def place_apple_loop (g : List Nat) : Nat → List Nat → Option Nat
  | _, [] => none
  | r, c :: cs =>
      let r' := if r ≠ 0 ∧ check_bitmap g c = 0 then r - 1 else r
      if r' = 0 then some c else place_apple_loop g r' cs

/-- Helper place_apple with the `rand()` call modelled by `randVal`:
`uint8_t r = rand() % (((SCREEN_HEIGHT * SCREEN_WIDTH) - 1 - current_score) + 1);`
followed by the scan loop.  The written coordinate is returned as
`some c`; `none` means the out-parameter was not written. -/
def place_apple (g : List Nat) (current_score : Nat) (randVal : Nat) :
    Option Nat :=
  let r := randVal % (SCREEN_HEIGHT * SCREEN_WIDTH - 1 - current_score + 1)
  place_apple_loop g r appleScanCells

/-- Helper place_new_head.  The `uint8_t` sums
`UPPER_BITS(old_head) + (direction == RIGHT) - (direction == LEFT)` are
computed in `int` and truncated to 8 bits on assignment (so `-1` becomes
255); the `x == SCREEN_WIDTH` branch executes the no-op comparison
`x == 0;`, leaving `x` at 8. -/
def place_new_head (old_head direction : Nat) : Nat :=
  let x := (UPPER_BITS old_head + (if direction = RIGHT then 1 else 0) + 256
            - (if direction = LEFT then 1 else 0)) % 256
  let x := if x > SCREEN_WIDTH then SCREEN_WIDTH - 1 else x
  let y := (LOWER_BITS old_head + (if direction = UP then 1 else 0) + 256
            - (if direction = DOWN then 1 else 0)) % 256
  let y := if y > SCREEN_HEIGHT then SCREEN_HEIGHT - 1
           else if y = SCREEN_HEIGHT then 0 else y
  TO_COORDINATES x y

/-- The direction-acceptance test inside `GameLogicTask`'s queue-receive
branch: `direction = new_direction` only when
`body_direction + new_direction` is neither `UP + DOWN` nor `LEFT + RIGHT`;
otherwise `direction` keeps its old value. -/
def update_direction (body_direction direction new_direction : Nat) : Nat :=
  if body_direction + new_direction ≠ UP + DOWN ∧
     body_direction + new_direction ≠ LEFT + RIGHT
  then new_direction else direction

/-- The local variables of `GameLogicTask` together with the global
`game_bitmap`.  `snake_buf` has 64 entries; indices and packed coordinates
are `uint8_t` values. -/
structure GameSt where
  state : Nat
  game_bitmap : List Nat
  snake_buf : List Nat
  head_idx : Nat
  tail_idx : Nat
  current_head : Nat
  apple : Nat
  current_score : Nat
  got_apple : Bool
  direction : Nat
  body_direction : Nat

/-- One pass of `GameLogicTask`'s `while (1)` loop body.  `newDir` is the
result of the non-blocking `xQueueReceive` (`some d` when a direction was
pending), `tick` the result of `ulTaskNotifyTake`, and `randVal` the value
`rand()` would return if `place_apple` is reached this pass. -/
def gameStep (newDir : Option Nat) (tick : Bool) (randVal : Nat)
    (s : GameSt) : GameSt :=
  if s.state = MAIN_MENU then s
  else if s.state = SETUP_GAME then
    let g := List.replicate 8 0
    let buf := s.snake_buf.set 0 (TO_COORDINATES 4 1)
    let g := set_bitmap_one g (buf.getD 0 0)
    let ch := place_new_head (buf.getD s.head_idx 0) UP
    let g := set_bitmap_one g ch
    let apple := TO_COORDINATES 4 7
    let g := set_bitmap_one g apple
    { s with game_bitmap := g, snake_buf := buf, direction := UP,
             body_direction := UP, current_head := ch, apple := apple,
             current_score := 2, state := PLAYING }
  else if s.state = PLAYING then
    -- direction event: drain the queue, validate, redraw provisional head
    let s1 :=
      match newDir with
      | none => s
      | some nd =>
          let dir := update_direction s.body_direction s.direction nd
          let g := set_bitmap_zero s.game_bitmap s.current_head
          let ch := place_new_head (s.snake_buf.getD s.head_idx 0) dir
          let g := set_bitmap_one g ch
          { s with direction := dir, game_bitmap := g, current_head := ch }
    -- apple check: `if (current_head == apple)`; the self-collision
    -- branch is dead because its condition is the literal `true`
    let s2 :=
      if s1.current_head = s1.apple then
        let sc := (s1.current_score + 1) % 256
        { s1 with apple := 255, got_apple := true, current_score := sc,
                  state := if 64 ≤ sc then GAME_OVER_TRANS else s1.state }
      else s1
    -- tick event: commit the provisional head, advance or grow the tail
    if tick then
      let h := SNAKE_NEXT s2.head_idx
      let buf := s2.snake_buf.set h s2.current_head
      let ch := place_new_head (buf.getD h 0) s2.direction
      let g := set_bitmap_one s2.game_bitmap ch
      if !s2.got_apple then
        let g := set_bitmap_zero g (buf.getD s2.tail_idx 0)
        { s2 with head_idx := h, snake_buf := buf,
                  body_direction := s2.direction, current_head := ch,
                  game_bitmap := g, tail_idx := SNAKE_NEXT s2.tail_idx }
      else
        let apple := (place_apple g s2.current_score randVal).getD s2.apple
        let g := set_bitmap_one g apple
        { s2 with head_idx := h, snake_buf := buf,
                  body_direction := s2.direction, current_head := ch,
                  game_bitmap := g, got_apple := false, apple := apple }
    else s2
  else if s.state = GAME_OVER_TRANS then
    { s with state := GAME_OVER_MENU }
  else s

/-- The state at entry to `GameLogicTask`: `state = SETUP_GAME`,
`tail_idx = 0`, `got_apple = false` are initialized; the global
`game_bitmap` is zero-initialized; `snake_buf`, `head_idx`,
`current_head`, `apple`, `current_score`, `direction` and
`body_direction` are uninitialized locals, so their entry values are
parameters of the model. -/
def initSt (buf0 : List Nat) (h0 ch0 a0 sc0 d0 bd0 : Nat) : GameSt :=
  { state := SETUP_GAME, game_bitmap := List.replicate 8 0,
    snake_buf := buf0, head_idx := h0, tail_idx := 0, current_head := ch0,
    apple := a0, current_score := sc0, got_apple := false,
    direction := d0, body_direction := bd0 }

/-- Runs `n` loop passes with a movement tick pending each pass and no pending
direction (and `rand()` returning 0 if consulted). -/
def runTicks : Nat → GameSt → GameSt
  | 0, s => s
  | n + 1, s => runTicks n (gameStep none true 0 s)

/-- Spec-side snake length from claim C8:
`(head_idx − tail_idx) mod 64 + 1`, written subtraction-safely for `Nat`
(`head_idx` and `tail_idx` are below 64 in well-formed states). -/
def snakeLen (h t : Nat) : Nat := (64 + h - t) % 64 + 1

/-- Spec-side reversal predicate: the received direction is the exact
opposite of the body direction (UP against DOWN and vice versa, LEFT
against RIGHT and vice versa). -/
def specOpposite (a b : Nat) : Bool :=
  (a == UP && b == DOWN) || (a == DOWN && b == UP) ||
  (a == LEFT && b == RIGHT) || (a == RIGHT && b == LEFT)

/-- State after the SETUP_GAME pass, starting from task entry with the
uninitialized locals taken as 0 (in particular `head_idx = 0`, which is
what `uint8_t head_idx, tail_idx = 0;` was evidently meant to produce). -/
def setupSt : GameSt :=
  gameStep none false 0 (initSt (List.replicate 64 0) 0 0 0 0 0 0)

/-- The state five movement ticks after setup, with no button input. -/
def afterFiveTicks : GameSt := runTicks 5 setupSt

/-- The state one further pass after `afterFiveTicks`, in which a LEFT
press is drained from the queue and no tick is pending.  At the start of
that pass the provisional head sits on the apple cell (4,7). -/
def postDirectionSt : GameSt := gameStep (some LEFT) false 0 afterFiveTicks

/-- A Playing-state configuration whose snake occupies the five cells
(1,2),(2,2),(3,2),(2,3),(3,3) — stored in `snake_buf[0..4]` as the path
(1,2) → (2,2) → (3,2) → (3,3) → (2,3) — with the provisional head already
computed one step DOWN from (2,3), i.e. onto the body cell (2,2)
(`snake_buf[1]`), and the apple elsewhere at (6,6).  The grid holds
exactly the body, head and apple bits. -/
def c3CollisionSt : GameSt :=
  { state := PLAYING, game_bitmap := [0, 0, 14, 12, 0, 0, 64, 0],
    snake_buf := (((((List.replicate 64 0).set 0 (TO_COORDINATES 1 2)).set 1
      (TO_COORDINATES 2 2)).set 2 (TO_COORDINATES 3 2)).set 3
      (TO_COORDINATES 3 3)).set 4 (TO_COORDINATES 2 3),
    head_idx := 4, tail_idx := 0, current_head := TO_COORDINATES 2 2,
    apple := TO_COORDINATES 6 6, current_score := 5, got_apple := false,
    direction := DOWN, body_direction := LEFT }

/-- A Playing-state configuration one tick before eating the apple: the
snake's stored cells are (4,1) and (4,6) at buffer indices 0 and 1, the
provisional head and the apple are both (4,7), and a tick is about to be
processed. -/
def c8WitnessSt : GameSt :=
  { state := PLAYING, game_bitmap := [0, 16, 16, 0, 0, 0, 0, 16],
    snake_buf := ((List.replicate 64 0).set 0 (TO_COORDINATES 4 1)).set 1
      (TO_COORDINATES 4 6),
    head_idx := 1, tail_idx := 0, current_head := TO_COORDINATES 4 7,
    apple := TO_COORDINATES 4 7, current_score := 5, got_apple := false,
    direction := UP, body_direction := UP }

/-- C1: the claim states that `place_new_head` wraps modulo the grid size,
so that from x = 7 moving RIGHT the new head has x = 0 and both components
are always below 8.  Evaluating the code at that input instead yields the
packed coordinate 128, whose x-component is 8: the `x == SCREEN_WIDTH`
branch only executes the no-op comparison `x == 0;`, so x is neither
wrapped nor clamped and leaves the grid. -/
theorem c1_right_from_edge_leaves_grid :
    place_new_head (TO_COORDINATES 7 0) RIGHT = TO_COORDINATES 8 0 ∧
    UPPER_BITS (place_new_head (TO_COORDINATES 7 0) RIGHT) = 8 := by
  decide

/-- C2: the claim states that the cell written by `place_apple` always has
a zero occupancy bit.  On the grid whose only occupied cell is (0,0)
(row 0 = 1, so at least one free cell exists, e.g. (1,0)), with score 0
and `rand()` returning 0, the drawn `r` is 0 at loop entry, so the code
writes (0,0) immediately — the occupied cell. -/
theorem c2_apple_written_to_occupied_cell :
    bitSet [1, 0, 0, 0, 0, 0, 0, 0] (TO_COORDINATES 0 0) = true ∧
    bitSet [1, 0, 0, 0, 0, 0, 0, 0] (TO_COORDINATES 1 0) = false ∧
    place_apple [1, 0, 0, 0, 0, 0, 0, 0] 0 0 = some (TO_COORDINATES 0 0) := by
  decide

/-- C3: the claim states that a tick processed while the provisional head
sits on a committed body cell (and not on the apple) moves the state from
Playing to GameOverTransition.  In `c3CollisionSt` the provisional head
equals the body cell `snake_buf[1]` and differs from the apple, yet after
the tick the state is still PLAYING: the self-collision test is commented
out (`/*check_bitmap(current_head)*/` and a literal `true` placeholder),
so the code never ends the game on self-collision. -/
theorem c3_self_collision_keeps_playing :
    c3CollisionSt.current_head = c3CollisionSt.snake_buf.getD 1 0 ∧
    c3CollisionSt.current_head ≠ c3CollisionSt.apple ∧
    c3CollisionSt.state = PLAYING ∧
    (gameStep none true 0 c3CollisionSt).state = PLAYING ∧
    (gameStep none true 0 c3CollisionSt).state ≠ GAME_OVER_TRANS := by
  decide

/-- C5: the claim states that in every state reachable from setup the
occupancy bit of a cell is set iff the cell is in the snake's live range,
is the provisional head, or is the apple cell.  The reachable state
`postDirectionSt` (setup, five ticks, then a LEFT press drained while the
provisional head sat on the apple cell (4,7)) refutes this: the apple is
still (4,7) and the game is still Playing, but the bit of (4,7) is clear,
because the direction event clears the old provisional head's bit and that
bit was shared with the apple. -/
theorem c5_reachable_state_breaks_grid_consistency :
    postDirectionSt.state = PLAYING ∧
    postDirectionSt.apple = TO_COORDINATES 4 7 ∧
    postDirectionSt.current_head = TO_COORDINATES 3 6 ∧
    bitSet postDirectionSt.game_bitmap (TO_COORDINATES 4 7) = false := by
  decide

/-- C6: the claim describes the result of the Setup transition and of five
subsequent ticks.  The first conjunct block shows the code's setup output
depends on the uninitialized local `head_idx` (only `tail_idx` is
initialized by `uint8_t head_idx, tail_idx = 0;`): entering setup with
`head_idx = 1` and a zeroed `snake_buf` produces the provisional head
(0,1) instead of (4,2).  The remaining conjuncts show that under the
evidently intended initialization `head_idx = 0` the claim's behavior
holds exactly: grid rows contain precisely (4,1), (4,2) and (4,7),
direction and body direction are UP, score is 2, state is PLAYING, and
after five ticks the head is at (4,7) with the score still 2. -/
theorem c6_setup_reads_uninitialized_head_idx :
    (gameStep none false 0 (initSt (List.replicate 64 0) 1 0 0 0 0 0)).current_head
        = TO_COORDINATES 0 1 ∧
    (gameStep none false 0 (initSt (List.replicate 64 0) 1 0 0 0 0 0)).current_head
        ≠ TO_COORDINATES 4 2 ∧
    setupSt.game_bitmap = [0, 16, 16, 0, 0, 0, 0, 16] ∧
    setupSt.current_head = TO_COORDINATES 4 2 ∧
    setupSt.apple = TO_COORDINATES 4 7 ∧
    setupSt.direction = UP ∧
    setupSt.body_direction = UP ∧
    setupSt.current_score = 2 ∧
    setupSt.state = PLAYING ∧
    afterFiveTicks.current_head = TO_COORDINATES 4 7 ∧
    afterFiveTicks.current_score = 2 ∧
    afterFiveTicks.state = PLAYING := by
  decide

/-- C7: the claim (and the warning comment above `place_apple` itself)
states that when every bit of the bitmap is 1 the out-parameter is not
altered.  With all eight rows equal to 255, score 63 (so the modulus is 1
and `r = 0`) and any `rand()` value, the code writes (0,0) into the
out-parameter on the very first loop step. -/
theorem c7_full_grid_still_writes_apple :
    (List.replicate 8 255).all (fun r => r = 255) = true ∧
    place_apple (List.replicate 8 255) 63 0 = some (TO_COORDINATES 0 0) := by
  decide

/-- Reading a list with a default at an index other than the one just set
gives the original entry. -/
lemma getD_set_ne (l : List Nat) (i j a : Nat) (h : i ≠ j) :
    (l.set i a).getD j 0 = l.getD j 0 := by
  simp [List.getD_eq_getElem?_getD, List.getElem?_set_ne h]

/-- Reading a list with a default at an in-range index just set gives the
new entry. -/
lemma getD_set_self (l : List Nat) (i a : Nat) (h : i < l.length) :
    (l.set i a).getD i 0 = a := by
  simp [List.getD_eq_getElem?_getD, List.getElem?_set_self, h]

/-- Truncating to a byte, re-oring the same mask and truncating again is
the same as the first truncated or. -/
lemma or_mod_or (a m : Nat) :
    ((a ||| m) % 256 ||| m) % 256 = (a ||| m) % 256 := by
  apply Nat.eq_of_testBit_eq
  intro i
  have h256 : (256 : Nat) = 2 ^ 8 := by norm_num
  rw [h256]
  simp only [Nat.testBit_mod_two_pow, Nat.testBit_or]
  by_cases hi : i < 8 <;> simp [hi, Bool.or_assoc]

/-- C4: a newly received direction is adopted as the committed direction
exactly when it is not the opposite of the body direction (UP against
DOWN, LEFT against RIGHT); an opposite input leaves the committed
direction unchanged, while repeats and perpendicular turns are adopted. -/
theorem c4_reversal_rule (bd old nd : Nat)
    (hbd : bd = UP ∨ bd = DOWN ∨ bd = RIGHT ∨ bd = LEFT)
    (hnd : nd = UP ∨ nd = DOWN ∨ nd = RIGHT ∨ nd = LEFT) :
    update_direction bd old nd =
      (if specOpposite bd nd then old else nd) := by
  rcases hbd with rfl | rfl | rfl | rfl <;>
    rcases hnd with rfl | rfl | rfl | rfl <;>
      simp [update_direction, specOpposite, UP, DOWN, LEFT, RIGHT]

/-- Witness for C4 at body direction UP and received direction DOWN: the
reversal is rejected and the committed direction stays UP. -/
theorem c4_reversal_rule_witness :
    update_direction UP UP DOWN = (if specOpposite UP DOWN then UP else DOWN) :=
  c4_reversal_rule UP UP DOWN (Or.inl rfl) (Or.inr (Or.inl rfl))

/-- C9: `check_bitmap` returns a nonzero value exactly when the
x-component (upper four bits) of the packed coordinate is zero and the row
indexed by the y-component (lower four bits) is nonzero — the `!` of its
body binds before the `&`, so a nonzero x-component always yields 0. -/
theorem c9_check_bitmap_characterization (g : List Nat) (c : Nat)
    (hc : c < 256) (hrow : LOWER_BITS c < g.length) :
    check_bitmap g c ≠ 0 ↔
      UPPER_BITS c = 0 ∧ g.getD (LOWER_BITS c) 0 ≠ 0 := by
  unfold check_bitmap
  generalize g.getD (LOWER_BITS c) 0 = v
  by_cases h0 : v = 0
  · simp [h0]
  · simp only [h0, ne_eq, not_false_eq_true, if_true, and_true]
    have hand : (1 : Nat) &&& 1 <<< UPPER_BITS c = (1 <<< UPPER_BITS c) % 2 := by
      rw [Nat.and_comm, Nat.and_one_is_mod]
    rw [hand, Nat.one_shiftLeft]
    rcases Nat.eq_zero_or_pos (UPPER_BITS c) with hx | hx
    · simp [hx]
    · obtain ⟨k, hk⟩ := Nat.exists_eq_succ_of_ne_zero hx.ne'
      rw [hk]
      simp [Nat.pow_succ, Nat.mul_mod_left]

/-- Witness for C9 on the grid whose row 0 is 1, at coordinate 0: the
check is nonzero and indeed x = 0 with a nonzero row. -/
theorem c9_check_bitmap_characterization_witness :
    check_bitmap [1, 0, 0, 0, 0, 0, 0, 0] 0 ≠ 0 ↔
      UPPER_BITS 0 = 0 ∧ List.getD [1, 0, 0, 0, 0, 0, 0, 0] (LOWER_BITS 0) 0 ≠ 0 :=
  c9_check_bitmap_characterization [1, 0, 0, 0, 0, 0, 0, 0] 0 (by decide)
    (by decide)

/-- C10: for a coordinate whose y-component is below 8, `set_bitmap_one`
and `set_bitmap_zero` leave every row other than the one indexed by that
y-component unchanged, and each operation is idempotent. -/
theorem c10_row_frame_and_idempotence (g : List Nat) (c : Nat)
    (hy : LOWER_BITS c < 8) :
    (∀ j, j ≠ LOWER_BITS c →
      (set_bitmap_one g c).getD j 0 = g.getD j 0) ∧
    (∀ j, j ≠ LOWER_BITS c →
      (set_bitmap_zero g c).getD j 0 = g.getD j 0) ∧
    set_bitmap_one (set_bitmap_one g c) c = set_bitmap_one g c ∧
    set_bitmap_zero (set_bitmap_zero g c) c = set_bitmap_zero g c := by
  refine ⟨?_, ?_, ?_, ?_⟩
  · intro j hj
    exact getD_set_ne _ _ _ _ (fun h => hj h.symm)
  · intro j hj
    exact getD_set_ne _ _ _ _ (fun h => hj h.symm)
  · by_cases hl : LOWER_BITS c < g.length
    · unfold set_bitmap_one
      rw [getD_set_self _ _ _ hl, List.set_set, or_mod_or]
    · have hle : g.length ≤ LOWER_BITS c := Nat.le_of_not_lt hl
      unfold set_bitmap_one
      simp [List.set_eq_of_length_le hle]
  · by_cases hl : LOWER_BITS c < g.length
    · unfold set_bitmap_zero
      rw [getD_set_self _ _ _ hl, List.set_set, Nat.and_assoc, Nat.and_self]
    · have hle : g.length ≤ LOWER_BITS c := Nat.le_of_not_lt hl
      unfold set_bitmap_zero
      simp [List.set_eq_of_length_le hle]

/-- Witness for C10 on an all-zero grid at coordinate (4,2): row 5 is
untouched by both operations and both operations are idempotent there. -/
theorem c10_row_frame_and_idempotence_witness :
    ((set_bitmap_one (List.replicate 8 0) (TO_COORDINATES 4 2)).getD 5 0
        = (List.replicate 8 0).getD 5 0) ∧
    ((set_bitmap_zero (List.replicate 8 0) (TO_COORDINATES 4 2)).getD 5 0
        = (List.replicate 8 0).getD 5 0) ∧
    set_bitmap_one (set_bitmap_one (List.replicate 8 0) (TO_COORDINATES 4 2))
        (TO_COORDINATES 4 2)
      = set_bitmap_one (List.replicate 8 0) (TO_COORDINATES 4 2) ∧
    set_bitmap_zero (set_bitmap_zero (List.replicate 8 0) (TO_COORDINATES 4 2))
        (TO_COORDINATES 4 2)
      = set_bitmap_zero (List.replicate 8 0) (TO_COORDINATES 4 2) := by
  have h := c10_row_frame_and_idempotence (List.replicate 8 0)
    (TO_COORDINATES 4 2) (by decide)
  exact ⟨h.1 5 (by decide), h.2.1 5 (by decide), h.2.2.1, h.2.2.2⟩

/-- Clearing a bit of an in-range cell really leaves that cell's occupancy
bit at zero. -/
lemma bitSet_set_bitmap_zero (g : List Nat) (c : Nat)
    (hrow : LOWER_BITS c < g.length) (hx : UPPER_BITS c < 8) :
    bitSet (set_bitmap_zero g c) c = false := by
  unfold bitSet set_bitmap_zero
  rw [getD_set_self _ _ _ hrow]
  have hm : (1 <<< UPPER_BITS c) % 256 = 1 <<< UPPER_BITS c := by
    apply Nat.mod_eq_of_lt
    rw [Nat.one_shiftLeft]
    calc 2 ^ UPPER_BITS c < 2 ^ 8 := Nat.pow_lt_pow_right (by norm_num) hx
    _ = 256 := by norm_num
  rw [hm, Nat.one_shiftLeft]
  have h255 : (255 : Nat) = 2 ^ 8 - 1 := by norm_num
  rw [Nat.testBit_and, Nat.testBit_xor, h255, Nat.testBit_two_pow_sub_one,
    Nat.testBit_two_pow_self]
  simp [hx]

/-- C8: starting a Playing pass with the apple on the provisional head
cell and a tick pending (no direction input), the pass grows the snake's
buffer length `(head_idx − tail_idx) mod 64 + 1` by exactly one without
advancing the tail index, increments the score by exactly one, and leaves
`got_apple` cleared; a tick pass in which no apple was consumed clears the
grid bit of the tail cell, advances the tail index by one, and keeps the
length unchanged.  The index hypotheses say the indices are in range and
the snake is shorter than the buffer capacity, which the score-based game
over check keeps true in play. -/
theorem c8_tick_growth_and_tail_advance (s : GameSt) (randVal : Nat)
    (hst : s.state = PLAYING)
    (hh : s.head_idx < 64) (ht : s.tail_idx < 64)
    (hfull : SNAKE_NEXT s.head_idx ≠ s.tail_idx)
    (hsc : s.current_score < 255)
    (hlen : s.game_bitmap.length = 8) :
    (s.current_head = s.apple →
      snakeLen (gameStep none true randVal s).head_idx
          (gameStep none true randVal s).tail_idx
        = snakeLen s.head_idx s.tail_idx + 1 ∧
      (gameStep none true randVal s).tail_idx = s.tail_idx ∧
      (gameStep none true randVal s).current_score = s.current_score + 1 ∧
      (gameStep none true randVal s).got_apple = false) ∧
    (s.current_head ≠ s.apple → s.got_apple = false →
      UPPER_BITS (s.snake_buf.getD s.tail_idx 0) < 8 →
      LOWER_BITS (s.snake_buf.getD s.tail_idx 0) < 8 →
      (gameStep none true randVal s).tail_idx = SNAKE_NEXT s.tail_idx ∧
      snakeLen (gameStep none true randVal s).head_idx
          (gameStep none true randVal s).tail_idx
        = snakeLen s.head_idx s.tail_idx ∧
      bitSet (gameStep none true randVal s).game_bitmap
          (s.snake_buf.getD s.tail_idx 0) = false) := by
  have hmenu : s.state ≠ MAIN_MENU := by rw [hst]; decide
  have hsetup : s.state ≠ SETUP_GAME := by rw [hst]; decide
  constructor
  · intro hae
    simp only [gameStep, hst, hae, PLAYING, MAIN_MENU, SETUP_GAME,
      GAME_OVER_TRANS, SNAKE_NEXT, snakeLen]
    norm_num
    refine ⟨?_, ?_⟩
    · unfold SNAKE_NEXT at hfull
      omega
    · omega
  · intro hne hga hxr hyr
    simp only [gameStep, hst, PLAYING, MAIN_MENU, SETUP_GAME,
      GAME_OVER_TRANS]
    norm_num [hne, hga]
    have htail : ((s.snake_buf.set (SNAKE_NEXT s.head_idx)
        s.current_head).getD s.tail_idx 0) = s.snake_buf.getD s.tail_idx 0 :=
      getD_set_ne _ _ _ _ hfull
    refine ⟨?_, ?_⟩
    · unfold snakeLen SNAKE_NEXT
      unfold SNAKE_NEXT at hfull
      omega
    · simp only [← List.getD_eq_getElem?_getD]
      rw [htail]
      apply bitSet_set_bitmap_zero
      · unfold set_bitmap_one
        rw [List.length_set, hlen]
        exact hyr
      · exact hxr

/-- Witness for C8 at the concrete pre-consumption state `c8WitnessSt`,
whose provisional head sits on the apple: the tick pass grows the length
from 2 to 3, keeps the tail index, bumps the score from 5 to 6 and clears
`got_apple`. -/
theorem c8_tick_growth_and_tail_advance_witness :
    c8WitnessSt.current_head = c8WitnessSt.apple ∧
    snakeLen (gameStep none true 0 c8WitnessSt).head_idx
        (gameStep none true 0 c8WitnessSt).tail_idx
      = snakeLen c8WitnessSt.head_idx c8WitnessSt.tail_idx + 1 ∧
    (gameStep none true 0 c8WitnessSt).tail_idx = c8WitnessSt.tail_idx ∧
    (gameStep none true 0 c8WitnessSt).current_score
      = c8WitnessSt.current_score + 1 ∧
    (gameStep none true 0 c8WitnessSt).got_apple = false := by
  have h := (c8_tick_growth_and_tail_advance c8WitnessSt 0 rfl (by decide)
    (by decide) (by decide) (by decide) (by decide)).1 rfl
  exact ⟨rfl, h.1, h.2.1, h.2.2.1, h.2.2.2⟩

end SnakeProto
